import Mathlib

/-!
Verification of the clinic management UI (`src/jupyter/db_UI.py`) against its
specification. The file shallowly embeds the data model (the four tables of
`Clinic.db`), the shared write helper `execute_query`, the per-screen read
queries, the creation-form submit handlers, and the dropdown reverse lookups.

The Python file contains only the UI; the SQLite schema (`CREATE TABLE`
statements, constraints, seed data) lives in a companion script that is not
part of the sources here. Where a constraint matters (UNIQUE phone, foreign
keys, the status CHECK), the corresponding definition is modelled from the
spec, and is marked as such in its doc comment.
-/

/-- A row of the `Doctors` table: `doctor_id, first_name, specialty, hourly_rate`.
The rate is a currency amount; it is modelled as an integer number of cents. -/
structure Doctor where
  doctor_id : Nat
  first_name : String
  specialty : String
  hourly_rate : Int
deriving DecidableEq

/-- A row of the `Patients` table: `patient_id, name, phone`. -/
structure Patient where
  patient_id : Nat
  name : String
  phone : String
deriving DecidableEq

/-- A row of the `Appointments` table:
`appoint_id, patient_id, doctor_id, appoint_date, status`.
Dates are modelled as natural numbers (days), preserving their ordering. -/
structure Appointment where
  appoint_id : Nat
  patient_id : Nat
  doctor_id : Nat
  appoint_date : Nat
  status : String
deriving DecidableEq

/-- A row of the `Treatments` table: `treatment_id, appoint_id, service_name, cost`.
The cost is modelled as an integer number of cents. -/
structure Treatment where
  treatment_id : Nat
  appoint_id : Nat
  service_name : String
  cost : Int
deriving DecidableEq

/-- The state of `Clinic.db`: the four tables, each a list of rows in
physical (insertion) order. -/
structure DB where
  doctors : List Doctor
  patients : List Patient
  appointments : List Appointment
  treatments : List Treatment
deriving DecidableEq

/-- SQLite assigns a fresh row id of `max existing id + 1`.
Modelled from the spec: the schema script with the id columns is not under
`src/`; the spec requires ids to be unique (section 3). -/
def nextId (ids : List Nat) : Nat := ids.foldr max 0 + 1

/-- A message rendered inline by the UI (`st.success` / `st.error` / `st.info`). -/
inductive Msg where
  | success : String → Msg
  | error : String → Msg
  | info : String → Msg
deriving DecidableEq

/-- Result of the shared write helper `execute_query`: the database state after
the call, the inline message shown, and whether `st.rerun()` was triggered. -/
structure ExecResult where
  db : DB
  msg : Msg
  rerun : Bool
deriving DecidableEq

/-- `execute_query(sql_query, params, success_msg)` from `db_UI.py` lines 39-49:
run the statement inside `engine.begin()` (commit on success, roll back on
failure), then `st.success` + `st.rerun()`; any exception is caught and shown
via `st.error("Database Error: ...")`. A statement is embedded as a function
from the database state to `Except` (its committed successor, or the error
text of the raised exception). Totality of this definition is the embedding of
the `try/except Exception` block: no exception escapes the helper. -/
def execute_query (db : DB) (stmt : DB → Except String DB) (success_msg : String) :
    ExecResult :=
  match stmt db with
  | Except.ok db2 => { db := db2, msg := Msg.success success_msg, rerun := true }
  | Except.error e => { db := db, msg := Msg.error ("Database Error: " ++ e), rerun := false }

/-- The INSERT issued by the `add_doctor` form (line 78). The schema places no
constraint on these columns, so the insert succeeds. -/
def insertDoctor (fname spec_ : String) (rate : Int) (db : DB) : Except String DB :=
  Except.ok { db with doctors :=
    db.doctors ++ [⟨nextId (db.doctors.map Doctor.doctor_id), fname, spec_, rate⟩] }

/-- The INSERT issued by the `add_patient` form (line 100).
Modelled from the spec: the UNIQUE constraint on `Patients.phone` lives in the
schema script, not under `src/`; the spec states "phone unique when present"
(section 3) and "Inserting a Patient with a duplicate phone fails" (section 8).
On a duplicate phone SQLite raises, which surfaces as the `Except.error`. -/
def insertPatient (name phone : String) (db : DB) : Except String DB :=
  if db.patients.any (fun p => p.phone == phone) then
    Except.error "UNIQUE constraint failed: Patients.phone"
  else
    Except.ok { db with patients :=
      db.patients ++ [⟨nextId (db.patients.map Patient.patient_id), name, phone⟩] }

/-- The allowed appointment statuses (spec section 3). -/
def statusAllowed (s : String) : Bool :=
  s == "Scheduled" || s == "Completed" || s == "Cancelled"

/-- The INSERT issued by the `new_appointment` form (line 147).
Modelled from the spec: the foreign-key and status CHECK constraints live in
the schema script, not under `src/`; the spec states "both refs must point to
existing rows" and "status must be one of the three values" (section 3). -/
def insertAppointment (pat_id doc_id : Nat) (app_date : Nat) (status : String)
    (db : DB) : Except String DB :=
  if ¬ db.patients.any (fun p => p.patient_id == pat_id) then
    Except.error "FOREIGN KEY constraint failed"
  else if ¬ db.doctors.any (fun d => d.doctor_id == doc_id) then
    Except.error "FOREIGN KEY constraint failed"
  else if ¬ statusAllowed status then
    Except.error "CHECK constraint failed: status"
  else
    Except.ok { db with appointments :=
      db.appointments ++
        [⟨nextId (db.appointments.map Appointment.appoint_id), pat_id, doc_id, app_date, status⟩] }

/-- The INSERT issued by the `add_treatment` form (line 200).
Modelled from the spec: the foreign-key constraint lives in the schema script,
not under `src/`; the spec states "ref must point to existing row" (section 3). -/
def insertTreatment (app_id : Nat) (service : String) (cost : Int) (db : DB) :
    Except String DB :=
  if ¬ db.appointments.any (fun a => a.appoint_id == app_id) then
    Except.error "FOREIGN KEY constraint failed"
  else
    Except.ok { db with treatments :=
      db.treatments ++
        [⟨nextId (db.treatments.map Treatment.treatment_id), app_id, service, cost⟩] }

/-- A row of the Appointments refresh query (lines 110-121): appointment id,
joined patient name, joined doctor first name and specialty, date, status. -/
structure ApptRow where
  appoint_id : Nat
  patient : String
  doctor : String
  specialty : String
  appoint_date : Nat
  status : String
deriving DecidableEq

/-- A row of the Treatments refresh query (lines 158-168): treatment id,
service name, cost, joined appointment date, patient name, doctor first name. -/
structure TreatRow where
  treatment_id : Nat
  service_name : String
  cost : Int
  appoint_date : Nat
  patient : String
  doctor : String
deriving DecidableEq

/-- `ORDER BY doctor_id` (ascending, line 58). -/
def doctorOrd (a b : Doctor) : Prop := a.doctor_id ≤ b.doctor_id

/-- `ORDER BY patient_id DESC` (line 87). -/
def patientOrd (a b : Patient) : Prop := b.patient_id ≤ a.patient_id

/-- `ORDER BY a.appoint_date DESC, a.appoint_id DESC` (line 120). -/
def apptRowOrd (a b : ApptRow) : Prop :=
  b.appoint_date < a.appoint_date ∨
    (b.appoint_date = a.appoint_date ∧ b.appoint_id ≤ a.appoint_id)

/-- `ORDER BY t.treatment_id DESC` (line 167). -/
def treatRowOrd (a b : TreatRow) : Prop := b.treatment_id ≤ a.treatment_id

instance : DecidableRel doctorOrd := fun a b => by unfold doctorOrd; infer_instance

instance : DecidableRel patientOrd := fun a b => by unfold patientOrd; infer_instance

instance : DecidableRel apptRowOrd := fun a b => by unfold apptRowOrd; infer_instance

instance : DecidableRel treatRowOrd := fun a b => by unfold treatRowOrd; infer_instance

instance : IsTotal Doctor doctorOrd := ⟨fun a b => Nat.le_total a.doctor_id b.doctor_id⟩

instance : IsTrans Doctor doctorOrd :=
  ⟨fun _ _ _ h1 h2 => Nat.le_trans h1 h2⟩

instance : IsTotal Patient patientOrd :=
  ⟨fun a b => (Nat.le_total b.patient_id a.patient_id).imp id id⟩

instance : IsTrans Patient patientOrd :=
  ⟨fun _ _ _ h1 h2 => Nat.le_trans h2 h1⟩

instance : IsTotal ApptRow apptRowOrd := by
  constructor
  intro a b
  unfold apptRowOrd
  rcases Nat.lt_trichotomy a.appoint_date b.appoint_date with h | h | h
  · exact Or.inr (Or.inl h)
  · rcases Nat.le_total a.appoint_id b.appoint_id with h2 | h2
    · exact Or.inr (Or.inr ⟨h, h2⟩)
    · exact Or.inl (Or.inr ⟨h.symm, h2⟩)
  · exact Or.inl (Or.inl h)

instance : IsTrans ApptRow apptRowOrd := by
  constructor
  intro a b c h1 h2
  unfold apptRowOrd at *
  rcases h1 with h1 | ⟨h1e, h1i⟩
  · rcases h2 with h2 | ⟨h2e, h2i⟩
    · exact Or.inl (Nat.lt_trans h2 h1)
    · exact Or.inl (h2e ▸ h1)
  · rcases h2 with h2 | ⟨h2e, h2i⟩
    · exact Or.inl (h1e ▸ h2)
    · exact Or.inr ⟨h2e.trans h1e, Nat.le_trans h2i h1i⟩

instance : IsTotal TreatRow treatRowOrd :=
  ⟨fun a b => (Nat.le_total b.treatment_id a.treatment_id).imp id id⟩

instance : IsTrans TreatRow treatRowOrd :=
  ⟨fun _ _ _ h1 h2 => Nat.le_trans h2 h1⟩

/-- `SELECT * FROM Doctors ORDER BY doctor_id` (line 58). -/
def doctorsView (db : DB) : List Doctor :=
  List.insertionSort doctorOrd db.doctors

/-- `SELECT * FROM Patients ORDER BY patient_id DESC` (line 87). -/
def patientsView (db : DB) : List Patient :=
  List.insertionSort patientOrd db.patients

/-- The inner-join row for one appointment: look up the referenced patient and
doctor rows (joins on the primary keys, lines 118-119). Returns `none` when a
reference does not resolve, matching an INNER JOIN dropping the row. -/
def apptJoinRow (db : DB) (a : Appointment) : Option ApptRow :=
  match db.patients.find? (fun p => p.patient_id == a.patient_id),
        db.doctors.find? (fun d => d.doctor_id == a.doctor_id) with
  | some p, some d =>
      some ⟨a.appoint_id, p.name, d.first_name, d.specialty, a.appoint_date, a.status⟩
  | _, _ => none

/-- The Appointments refresh query (lines 110-121): join each appointment to
its patient and doctor, order by date then id, both descending. -/
def appointmentsView (db : DB) : List ApptRow :=
  List.insertionSort apptRowOrd (db.appointments.filterMap (apptJoinRow db))

/-- The inner-join row for one treatment (joins of lines 164-166). -/
def treatJoinRow (db : DB) (t : Treatment) : Option TreatRow :=
  match db.appointments.find? (fun a => a.appoint_id == t.appoint_id) with
  | some a =>
      match db.patients.find? (fun p => p.patient_id == a.patient_id),
            db.doctors.find? (fun d => d.doctor_id == a.doctor_id) with
      | some p, some d =>
          some ⟨t.treatment_id, t.service_name, t.cost, a.appoint_date, p.name, d.first_name⟩
      | _, _ => none
  | none => none

/-- The Treatments refresh query (lines 158-168): join each treatment through
its appointment to the patient and doctor, order by treatment id descending. -/
def treatmentsView (db : DB) : List TreatRow :=
  List.insertionSort treatRowOrd (db.treatments.filterMap (treatJoinRow db))

/-- `df[...].iloc[0]`: the first element of a pandas selection. Raises
`IndexError` when the selection is empty; the raise is embedded as
`Except.error`, and — unlike the write helper — nothing in the calling code
catches it. -/
def ilocHead {α : Type} (l : List α) : Except String α :=
  match l with
  | [] => Except.error "IndexError: single positional indexer is out-of-bounds"
  | a :: _ => Except.ok a

/-- The doctor dropdown label (lines 134 and 145): the f-string rendering
"Dr. ", the first name, " - " and the specialty. -/
def doctorLabel (d : Doctor) : String :=
  "Dr. " ++ d.first_name ++ " - " ++ d.specialty

/-- Line 144: `patients.loc[patients["name"] == patient_name, "patient_id"]` —
the patient ids of the rows whose name equals the selected string, in fetch
order. -/
def patientIdLookup (ps : List Patient) (sel : String) : List Nat :=
  (ps.filter (fun p => p.name == sel)).map Patient.patient_id

/-- Line 145: the doctor ids of the rows whose rendered label equals the
selected combo string, in fetch order. -/
def doctorIdLookup (ds : List Doctor) (sel : String) : List Nat :=
  (ds.filter (fun d => doctorLabel d == sel)).map Doctor.doctor_id

/-- A row of the appointment dropdown query of the treatment form (lines 176-183):
`appoint_id, DATE(appoint_date) as date, p.name, d.first_name`. -/
structure ApptChoice where
  appoint_id : Nat
  date : Nat
  name : String
  first_name : String
deriving DecidableEq

/-- The join row behind one entry of the appointment dropdown (lines 176-183). -/
def apptChoiceRow (db : DB) (a : Appointment) : Option ApptChoice :=
  match db.patients.find? (fun p => p.patient_id == a.patient_id),
        db.doctors.find? (fun d => d.doctor_id == a.doctor_id) with
  | some p, some d => some ⟨a.appoint_id, a.appoint_date, p.name, d.first_name⟩
  | _, _ => none

/-- The result set of the appointment dropdown query (lines 176-183). -/
def apptChoices (db : DB) : List ApptChoice :=
  db.appointments.filterMap (apptChoiceRow db)

/-- The appointment dropdown label (lines 186 and 191): the f-string rendering
the date, " - ", the patient name, " with Dr. " and the doctor first name. -/
def apptChoiceLabel (x : ApptChoice) : String :=
  toString x.date ++ " - " ++ x.name ++ " with Dr. " ++ x.first_name

/-- Line 191: the appointment ids of the dropdown rows whose rendered label
equals the chosen string, in fetch order. -/
def appointIdLookup (db : DB) (sel : String) : List Nat :=
  ((apptChoices db).filter (fun x => apptChoiceLabel x == sel)).map ApptChoice.appoint_id

/-- What a form submit branch does: render an inline validation error without
touching the database, or call into `execute_query`. -/
inductive FormAction where
  | showError : String → FormAction
  | submit : ExecResult → FormAction
deriving DecidableEq

/-- The `add_doctor` submit branch (lines 71-79): require `fname` and
`specialty` non-empty (Python `not s` on a string), else INSERT. -/
def addDoctorSubmit (db : DB) (fname specialty : String) (rate : Int) : FormAction :=
  if fname == "" || specialty == "" then
    FormAction.showError "First name and Specialty are required."
  else
    FormAction.submit (execute_query db (insertDoctor fname specialty rate) "Doctor added!")

/-- The `add_patient` submit branch (lines 96-101): require `name` and `phone`
non-empty, else INSERT. -/
def addPatientSubmit (db : DB) (name phone : String) : FormAction :=
  if name == "" || phone == "" then
    FormAction.showError "Name and phone required"
  else
    FormAction.submit
      (execute_query db (insertPatient name phone) ("Patient " ++ name ++ " registered!"))

/-- The `new_appointment` submit branch (lines 142-150): reverse-look up the
patient and doctor ids from the selected strings (`.iloc[0]`, lines 144-145),
then INSERT through `execute_query`. The two lookups sit outside any
`try/except`, so their `IndexError` propagates (the `Except` layer). -/
def bookSubmit (db : DB) (patient_name doctor_combo : String) (appoint_date : Nat)
    (status : String) : Except String ExecResult := do
  let pat_id ← ilocHead (patientIdLookup db.patients patient_name)
  let doc_id ← ilocHead (doctorIdLookup db.doctors doctor_combo)
  pure (execute_query db (insertAppointment pat_id doc_id appoint_date status)
    "Appointment booked!")

/-- The `add_treatment` expander (lines 173-202): the appointment-id reverse
lookup (line 191) runs at render time, outside any `try/except`, before the
submit button is even checked; then the submit branch requires `service`
non-empty, else INSERT. `none` means the form rendered without submission. -/
def addTreatmentStep (db : DB) (appoint_choice service : String) (cost : Int)
    (submitted : Bool) : Except String (Option FormAction) := do
  let app_id ← ilocHead (appointIdLookup db appoint_choice)
  if submitted then
    if service == "" then
      pure (some (FormAction.showError "Service name is required."))
    else
      pure (some (FormAction.submit
        (execute_query db (insertTreatment app_id service cost) "Treatment recorded!")))
  else
    pure none

/-- What the Raw SQL screen renders: a dataframe plus the row-count info line,
or an inline error message. -/
inductive UIOut where
  | display : List (List String) → String → UIOut
  | errorMsg : String → UIOut
deriving DecidableEq

/-- The Raw SQL run branch (lines 216-222): `pd.read_sql` inside `try/except`;
the read result is passed in as `Except` (rows, or the text of the raised error).
Totality embeds the `except`: every failure becomes an inline `SQL Error`. -/
def rawSqlRun (res : Except String (List (List String))) : UIOut :=
  match res with
  | Except.ok df => UIOut.display df (toString df.length ++ " rows returned.")
  | Except.error e => UIOut.errorMsg ("SQL Error: " ++ e)

/-- `tok` occurs as a contiguous run within `s`. -/
def hasSubRun (tok : List Char) : List Char → Bool
  | [] => tok.isEmpty
  | c :: rest => tok.isPrefixOf (c :: rest) || hasSubRun tok rest

/-- The SQL text `s` mentions the keyword `tok`. -/
def sqlMentions (tok s : String) : Bool := hasSubRun tok.toList s.toList

/-- The Appointments refresh SELECT (lines 110-121), whitespace flattened. -/
def apptRefreshSQL : String :=
  "SELECT a.appoint_id, p.name AS patient, d.first_name AS doctor, d.specialty, " ++
  "a.appoint_date, a.status FROM Appointments a " ++
  "JOIN Patients p ON a.patient_id = p.patient_id " ++
  "JOIN Doctors d ON a.doctor_id = d.doctor_id " ++
  "ORDER BY a.appoint_date DESC, a.appoint_id DESC"

/-- The patient dropdown SELECT of the booking form (line 129). -/
def bookPatientsSQL : String := "SELECT patient_id, name FROM Patients"

/-- The doctor dropdown SELECT of the booking form (line 130). -/
def bookDoctorsSQL : String := "SELECT doctor_id, first_name, specialty FROM Doctors"

/-- The INSERT of the booking form (line 147). -/
def apptInsertSQL : String :=
  "INSERT INTO Appointments (patient_id, doctor_id, appoint_date, status) " ++
  "VALUES (:pat_id, :doc_id, :app_date, :status)"

/-- Every SQL statement occurring in the Appointments menu branch of
`db_UI.py` (lines 105-150): the refresh SELECT, the two dropdown SELECTs, and
the booking INSERT. There are no other statements in that branch. -/
def appointmentsScreenStatements : List String :=
  [apptRefreshSQL, bookPatientsSQL, bookDoctorsSQL, apptInsertSQL]

/-- Concrete seed database used by the closed witnesses below. Modelled from
the spec: initialization seeds two demo doctors and two demo patients
(section 4.1), and section 8 names the demo patient "Jane Smith". -/
def db0 : DB :=
  { doctors := [⟨1, "Alice", "Cardiology", 20000⟩, ⟨2, "Bob", "Dermatology", 15000⟩]
    patients := [⟨1, "John Doe", "9848000001"⟩, ⟨2, "Jane Smith", "9848000002"⟩]
    appointments := []
    treatments := [] }

/-- The seed database extended with one appointment and one treatment, used by
the witnesses that need all four tables populated. -/
def db1 : DB :=
  { db0 with
    appointments := [⟨1, 2, 1, 100, "Scheduled"⟩]
    treatments := [⟨1, 1, "Cleaning", 5000⟩] }


/-! Helper lemmas shared by the claim theorems. -/

theorem le_foldr_max {i : Nat} : ∀ {ids : List Nat}, i ∈ ids → i ≤ ids.foldr max 0 := by
  intro ids h
  induction ids with
  | nil => cases h
  | cons a l ih =>
    rcases List.mem_cons.mp h with h1 | h1
    · exact h1 ▸ Nat.le_max_left a (l.foldr max 0)
    · exact Nat.le_trans (ih h1) (Nat.le_max_right a (l.foldr max 0))

theorem nextId_fresh {i : Nat} {ids : List Nat} (h : i ∈ ids) : i ≠ nextId ids := by
  have := le_foldr_max h
  unfold nextId
  omega

theorem filter_head?_eq_find? {α : Type} (pr : α → Bool) :
    ∀ l : List α, (l.filter pr).head? = l.find? pr := by
  intro l
  induction l with
  | nil => rfl
  | cons a l ih =>
    by_cases h : pr a = true
    · simp [List.filter_cons, List.find?, h]
    · simp only [Bool.not_eq_true] at h
      simp [List.filter_cons, List.find?, h, ih]

theorem ilocHead_of_head? {α : Type} {l : List α} {a : α} (h : l.head? = some a) :
    ilocHead l = Except.ok a := by
  cases l with
  | nil => cases h
  | cons b t => simp only [List.head?] at h; cases h; rfl

theorem find?_key_of_nodup {α : Type} (key : α → Nat) {l : List α} {p : α}
    (hn : (l.map key).Nodup) (hp : p ∈ l) :
    l.find? (fun q => key q == key p) = some p := by
  induction l with
  | nil => cases hp
  | cons a l ih =>
    simp only [List.map_cons, List.nodup_cons] at hn
    rcases List.mem_cons.mp hp with h1 | h1
    · subst h1
      simp [List.find?]
    · have hne : ¬ key a = key p := by
        intro he
        exact hn.1 (he ▸ List.mem_map_of_mem key h1)
      have hk : (key a == key p) = false := by
        simpa using hne
      simp only [List.find?, hk]
      exact ih hn.2 h1

theorem apptJoinRow_id {db : DB} {a : Appointment} {b : ApptRow}
    (h : apptJoinRow db a = some b) : b.appoint_id = a.appoint_id := by
  unfold apptJoinRow at h
  cases hp : db.patients.find? (fun p => p.patient_id == a.patient_id) with
  | none => rw [hp] at h; cases h
  | some p =>
    cases hd : db.doctors.find? (fun d => d.doctor_id == a.doctor_id) with
    | none => rw [hp, hd] at h; cases h
    | some d =>
      rw [hp, hd] at h
      cases h
      rfl

theorem treatJoinRow_id {db : DB} {t : Treatment} {b : TreatRow}
    (h : treatJoinRow db t = some b) : b.treatment_id = t.treatment_id := by
  unfold treatJoinRow at h
  cases ha : db.appointments.find? (fun a => a.appoint_id == t.appoint_id) with
  | none => rw [ha] at h; cases h
  | some a =>
    simp only [ha] at h
    cases hp : db.patients.find? (fun p => p.patient_id == a.patient_id) with
    | none => simp only [hp] at h; cases h
    | some p =>
      cases hd : db.doctors.find? (fun d => d.doctor_id == a.doctor_id) with
      | none => simp only [hp, hd] at h; cases h
      | some d =>
        simp only [hp, hd, Option.some.injEq] at h
        rw [← h]

theorem filterMap_map_of_isSome {α β γ : Type} (f : α → Option β) (g : β → γ) (h : α → γ)
    (hfg : ∀ a b, f a = some b → g b = h a) :
    ∀ l : List α, (∀ a ∈ l, (f a).isSome) → (l.filterMap f).map g = l.map h := by
  intro l hl
  induction l with
  | nil => rfl
  | cons a l ih =>
    have ha : (f a).isSome := hl a (List.mem_cons_self a l)
    cases hfa : f a with
    | none => rw [hfa] at ha; cases ha
    | some b =>
      rw [List.filterMap_cons, hfa, List.map_cons, List.map_cons,
        ih (fun x hx => hl x (List.mem_cons_of_mem a hx)), hfg a b hfa]

/-! The claim theorems. -/

/-- C1: inserting a Patient whose phone equals the phone of an existing Patient
row fails — the write surfaces as a reported error message, triggers no rerun —
and the database (in particular the Patients table) is left unchanged. -/
theorem duplicate_phone_insert_fails (db : DB) (name phone m : String) (p : Patient)
    (hp : p ∈ db.patients) (hph : p.phone = phone) :
    (execute_query db (insertPatient name phone) m).db = db ∧
    (execute_query db (insertPatient name phone) m).rerun = false ∧
    ∃ e, (execute_query db (insertPatient name phone) m).msg = Msg.error e := by
  have hany : db.patients.any (fun q => q.phone == phone) = true := by
    rw [List.any_eq_true]
    exact ⟨p, hp, by simp [hph]⟩
  have hstmt : insertPatient name phone db =
      Except.error "UNIQUE constraint failed: Patients.phone" := by
    simp [insertPatient, hany]
  refine ⟨?_, ?_, ?_⟩ <;> simp [execute_query, hstmt]

/-- Witness for C1 at the seed database: patient "John Doe" already holds phone
"9848000001", so registering any patient with that phone fails and leaves the
database unchanged. -/
theorem duplicate_phone_insert_fails_witness :
    (execute_query db0 (insertPatient "Eve" "9848000001") "m").db = db0 ∧
    (execute_query db0 (insertPatient "Eve" "9848000001") "m").rerun = false ∧
    ∃ e, (execute_query db0 (insertPatient "Eve" "9848000001") "m").msg = Msg.error e :=
  duplicate_phone_insert_fails db0 "Eve" "9848000001" "m"
    ⟨1, "John Doe", "9848000001"⟩ (by simp [db0]) rfl

/-- C4: for every parameterized mutation routed through `execute_query`, on
success the committed state of the statement is adopted, the success message shown
and a rerun triggered; on failure the state is rolled back unchanged and a
`Database Error` message shown. `execute_query` is a total function into
`ExecResult`, which embeds the `try/except Exception`: no exception propagates
to the caller in either case. -/
theorem execute_query_commits_or_reports (db : DB) (stmt : DB → Except String DB)
    (m : String) (db2 : DB) (e : String) :
    (stmt db = Except.ok db2 →
      execute_query db stmt m = ⟨db2, Msg.success m, true⟩) ∧
    (stmt db = Except.error e →
      execute_query db stmt m = ⟨db, Msg.error ("Database Error: " ++ e), false⟩) := by
  constructor <;> intro h <;> simp [execute_query, h]

/-- Witness for C4: a concrete succeeding insert commits, and a concrete
constraint-violating insert reports the error with the state unchanged. -/
theorem execute_query_commits_or_reports_witness :
    execute_query db0 (insertDoctor "Carol" "ENT" 100) "Doctor added!" =
      ⟨{ db0 with doctors := db0.doctors ++ [⟨3, "Carol", "ENT", 100⟩] },
        Msg.success "Doctor added!", true⟩ ∧
    execute_query db0 (insertPatient "Eve" "9848000001") "m" =
      ⟨db0, Msg.error ("Database Error: " ++ "UNIQUE constraint failed: Patients.phone"),
        false⟩ :=
  ⟨(execute_query_commits_or_reports db0 (insertDoctor "Carol" "ENT" 100) "Doctor added!"
      { db0 with doctors := db0.doctors ++ [⟨3, "Carol", "ENT", 100⟩] } "").1 rfl,
   (execute_query_commits_or_reports db0 (insertPatient "Eve" "9848000001") "m" db0
      "UNIQUE constraint failed: Patients.phone").2 rfl⟩

/-- C7: a write through `execute_query` triggers the `st.rerun()` refresh
exactly when the statement succeeded; after a failed write no refresh happens
and the database is unchanged; and after each successful creation — doctor,
patient, appointment and treatment — the refreshed view of that screen
contains the newly inserted (previously absent) row; for the doubly joined
treatment view this holds under referential integrity of the appointment rows
(the schema invariant of spec section 3). -/
theorem writes_refresh_iff_success (db : DB) (stmt : DB → Except String DB) (m : String) :
    ((execute_query db stmt m).rerun = true ↔ ∃ db2, stmt db = Except.ok db2) ∧
    ((execute_query db stmt m).rerun = false → (execute_query db stmt m).db = db) ∧
    (∀ fname spec_ rate db2, insertDoctor fname spec_ rate db = Except.ok db2 →
      ∃ d, d ∈ doctorsView db2 ∧ d ∉ db.doctors ∧
        d.first_name = fname ∧ d.specialty = spec_ ∧ d.hourly_rate = rate) ∧
    (∀ name phone db2, insertPatient name phone db = Except.ok db2 →
      ∃ p, p ∈ patientsView db2 ∧ p ∉ db.patients ∧
        p.name = name ∧ p.phone = phone) ∧
    (∀ pid did date st db2, insertAppointment pid did date st db = Except.ok db2 →
      ∃ row, row ∈ appointmentsView db2 ∧ row ∉ appointmentsView db ∧
        row.appoint_date = date ∧ row.status = st) ∧
    (∀ aid service cost db2, insertTreatment aid service cost db = Except.ok db2 →
      (∀ a ∈ db.appointments, (apptJoinRow db a).isSome) →
      ∃ row, row ∈ treatmentsView db2 ∧ row ∉ treatmentsView db ∧
        row.service_name = service ∧ row.cost = cost) := by
  refine ⟨?_, ?_, ?_, ?_, ?_, ?_⟩
  · constructor
    · intro h
      cases hs : stmt db with
      | ok db2 => exact ⟨db2, rfl⟩
      | error e => simp [execute_query, hs] at h
    · rintro ⟨db2, h⟩
      simp [execute_query, h]
  · intro h
    cases hs : stmt db with
    | ok db2 => simp [execute_query, hs] at h
    | error e => simp [execute_query, hs]
  · intro fname spec_ rate db2 h
    simp only [insertDoctor, Except.ok.injEq] at h
    refine ⟨⟨nextId (db.doctors.map Doctor.doctor_id), fname, spec_, rate⟩, ?_, ?_, rfl, rfl, rfl⟩
    · rw [← h]
      exact (List.mem_insertionSort doctorOrd).mpr (by simp)
    · intro hmem
      exact nextId_fresh (List.mem_map_of_mem Doctor.doctor_id hmem) rfl
  · intro name phone db2 h
    by_cases hc : db.patients.any (fun p => p.phone == phone) = true
    · simp [insertPatient, hc] at h
    · have hc2 : (db.patients.any fun p => p.phone == phone) = false := by
        simpa using hc
      simp only [insertPatient, hc2, Bool.false_eq_true, if_false, Except.ok.injEq] at h
      refine ⟨⟨nextId (db.patients.map Patient.patient_id), name, phone⟩, ?_, ?_, rfl, rfl⟩
      · rw [← h]
        exact (List.mem_insertionSort patientOrd).mpr (by simp)
      · intro hmem
        exact nextId_fresh (List.mem_map_of_mem Patient.patient_id hmem) rfl
  · intro pid did date st db2 h
    unfold insertAppointment at h
    split_ifs at h with hf1 hf2 hf3
    cases h
    obtain ⟨p, hpf⟩ : ∃ p, db.patients.find? (fun q => q.patient_id == pid) = some p := by
      cases hpf : db.patients.find? (fun q => q.patient_id == pid) with
      | some p => exact ⟨p, rfl⟩
      | none =>
        rcases List.any_eq_true.mp hf1 with ⟨x, hx, hpx⟩
        exact absurd hpx (by simpa using List.find?_eq_none.mp hpf x hx)
    obtain ⟨d, hdf⟩ : ∃ d, db.doctors.find? (fun q => q.doctor_id == did) = some d := by
      cases hdf : db.doctors.find? (fun q => q.doctor_id == did) with
      | some d => exact ⟨d, rfl⟩
      | none =>
        rcases List.any_eq_true.mp hf2 with ⟨x, hx, hpx⟩
        exact absurd hpx (by simpa using List.find?_eq_none.mp hdf x hx)
    have hjoin : apptJoinRow db
        ⟨nextId (db.appointments.map Appointment.appoint_id), pid, did, date, st⟩ =
        some ⟨nextId (db.appointments.map Appointment.appoint_id),
          p.name, d.first_name, d.specialty, date, st⟩ := by
      show (match db.patients.find? (fun q => q.patient_id == pid),
                 db.doctors.find? (fun q => q.doctor_id == did) with
            | some q, some e =>
                some (⟨nextId (db.appointments.map Appointment.appoint_id),
                  q.name, e.first_name, e.specialty, date, st⟩ : ApptRow)
            | _, _ => none) = _
      rw [hpf, hdf]
    refine ⟨⟨nextId (db.appointments.map Appointment.appoint_id),
      p.name, d.first_name, d.specialty, date, st⟩, ?_, ?_, rfl, rfl⟩
    · exact (List.mem_insertionSort apptRowOrd).mpr
        (List.mem_filterMap.mpr ⟨_, by simp, hjoin⟩)
    · intro hmem
      rcases List.mem_filterMap.mp ((List.mem_insertionSort apptRowOrd).mp hmem)
        with ⟨a, ha, hja⟩
      have hid := apptJoinRow_id hja
      exact nextId_fresh (List.mem_map_of_mem Appointment.appoint_id ha) hid.symm
  · intro aid service cost db2 h hRI
    unfold insertTreatment at h
    split_ifs at h with hf1
    cases h
    obtain ⟨a, haf⟩ : ∃ a, db.appointments.find? (fun q => q.appoint_id == aid) = some a := by
      cases haf : db.appointments.find? (fun q => q.appoint_id == aid) with
      | some a => exact ⟨a, rfl⟩
      | none =>
        rcases List.any_eq_true.mp hf1 with ⟨x, hx, hpx⟩
        exact absurd hpx (by simpa using List.find?_eq_none.mp haf x hx)
    have hri := hRI a (List.mem_of_find?_eq_some haf)
    unfold apptJoinRow at hri
    cases hpf : db.patients.find? (fun q => q.patient_id == a.patient_id) with
    | none => rw [hpf] at hri; simp at hri
    | some p =>
    cases hdf : db.doctors.find? (fun q => q.doctor_id == a.doctor_id) with
    | none => rw [hpf, hdf] at hri; simp at hri
    | some d =>
    have hjoin : treatJoinRow db
        ⟨nextId (db.treatments.map Treatment.treatment_id), aid, service, cost⟩ =
        some ⟨nextId (db.treatments.map Treatment.treatment_id), service, cost,
          a.appoint_date, p.name, d.first_name⟩ := by
      unfold treatJoinRow
      simp only [haf]
      rw [hpf, hdf]
    refine ⟨⟨nextId (db.treatments.map Treatment.treatment_id), service, cost,
      a.appoint_date, p.name, d.first_name⟩, ?_, ?_, rfl, rfl⟩
    · exact (List.mem_insertionSort treatRowOrd).mpr
        (List.mem_filterMap.mpr ⟨_, by simp, hjoin⟩)
    · intro hmem
      rcases List.mem_filterMap.mp ((List.mem_insertionSort treatRowOrd).mp hmem)
        with ⟨t, ht, hjt⟩
      have hid := treatJoinRow_id hjt
      exact nextId_fresh (List.mem_map_of_mem Treatment.treatment_id ht) hid.symm

/-- Witness for C7 at the seed databases: a successful doctor insert reruns; a
duplicate-phone patient insert does not rerun and leaves the state unchanged;
and each of the four refreshed views contains its newly inserted row. -/
theorem writes_refresh_iff_success_witness :
    (execute_query db0 (insertDoctor "Carol" "ENT" 100) "m").rerun = true ∧
    (execute_query db0 (insertPatient "Eve" "9848000001") "m").db = db0 ∧
    (∃ d, d ∈ doctorsView { db0 with doctors := db0.doctors ++ [⟨3, "Carol", "ENT", 100⟩] } ∧
      d ∉ db0.doctors ∧ d.first_name = "Carol" ∧ d.specialty = "ENT" ∧ d.hourly_rate = 100) ∧
    (∃ p, p ∈ patientsView
        { db0 with patients := db0.patients ++ [⟨3, "Eve", "9848000003"⟩] } ∧
      p ∉ db0.patients ∧ p.name = "Eve" ∧ p.phone = "9848000003") ∧
    (∃ row, row ∈ appointmentsView
        { db0 with appointments := db0.appointments ++ [⟨1, 2, 1, 100, "Scheduled"⟩] } ∧
      row ∉ appointmentsView db0 ∧ row.appoint_date = 100 ∧ row.status = "Scheduled") ∧
    (∃ row, row ∈ treatmentsView
        { db1 with treatments := db1.treatments ++ [⟨2, 1, "Xray", 4000⟩] } ∧
      row ∉ treatmentsView db1 ∧ row.service_name = "Xray" ∧ row.cost = 4000) :=
  ⟨(writes_refresh_iff_success db0 (insertDoctor "Carol" "ENT" 100) "m").1.mpr
      ⟨_, rfl⟩,
   (writes_refresh_iff_success db0 (insertPatient "Eve" "9848000001") "m").2.1 rfl,
   (writes_refresh_iff_success db0 (insertDoctor "Carol" "ENT" 100) "m").2.2.1
      "Carol" "ENT" 100 _ rfl,
   (writes_refresh_iff_success db0 (insertPatient "Eve" "9848000003") "m").2.2.2.1
      "Eve" "9848000003" _ rfl,
   (writes_refresh_iff_success db0 (insertAppointment 2 1 100 "Scheduled") "m").2.2.2.2.1
      2 1 100 "Scheduled" _ rfl,
   (writes_refresh_iff_success db1 (insertTreatment 1 "Xray" 4000) "m").2.2.2.2.2
      1 "Xray" 4000 _ rfl (by decide)⟩

/-- The submit branch issued an INSERT (reached `execute_query`) rather than
stopping at the validation error. -/
def issuesInsert : FormAction → Bool
  | FormAction.submit _ => true
  | FormAction.showError _ => false

/-- C5: each creation form issues its INSERT exactly when every required text
field is non-empty (Python `not s` truthiness); with a required field empty it
shows the error message of that form and issues nothing; and no validation beyond
non-emptiness exists — the equivalences hold for all other field values. -/
theorem forms_validate_presence_only (db : DB) (fname spec_ name phone service choice : String)
    (rate cost : Int) :
    (issuesInsert (addDoctorSubmit db fname spec_ rate) = true ↔ (¬fname = "" ∧ ¬spec_ = "")) ∧
    ((fname = "" ∨ spec_ = "") →
      addDoctorSubmit db fname spec_ rate =
        FormAction.showError "First name and Specialty are required.") ∧
    (issuesInsert (addPatientSubmit db name phone) = true ↔ (¬name = "" ∧ ¬phone = "")) ∧
    ((name = "" ∨ phone = "") →
      addPatientSubmit db name phone = FormAction.showError "Name and phone required") ∧
    (∀ act, addTreatmentStep db choice service cost true = Except.ok (some act) →
      (issuesInsert act = true ↔ ¬service = "")) ∧
    (¬appointIdLookup db choice = [] → service = "" →
      addTreatmentStep db choice service cost true =
        Except.ok (some (FormAction.showError "Service name is required."))) := by
  refine ⟨?_, ?_, ?_, ?_, ?_, ?_⟩
  · by_cases hf : fname = "" <;> by_cases hs : spec_ = "" <;>
      simp [addDoctorSubmit, hf, hs, issuesInsert]
  · intro h
    rcases h with h | h <;> simp [addDoctorSubmit, h]
  · by_cases hn : name = "" <;> by_cases hp : phone = "" <;>
      simp [addPatientSubmit, hn, hp, issuesInsert]
  · intro h
    rcases h with h | h <;> simp [addPatientSubmit, h]
  · intro act h
    cases hl : appointIdLookup db choice with
    | nil => simp [addTreatmentStep, hl, ilocHead, Except.bind, Bind.bind] at h
    | cons i t =>
      by_cases hs : service = "" <;>
        simp [addTreatmentStep, hl, ilocHead, hs, issuesInsert, Except.bind, Bind.bind,
          pure, Except.pure] at h ⊢ <;>
        simp [← h, issuesInsert, hs]
  · intro hl hs
    cases hcl : appointIdLookup db choice with
    | nil => exact absurd hcl hl
    | cons i t => simp [addTreatmentStep, hcl, ilocHead, hs, Except.bind, Bind.bind,
        pure, Except.pure]

/-- Witness for C5: at the seed database with one appointment, the empty-field
branches show errors and the non-empty branches issue INSERTs. -/
theorem forms_validate_presence_only_witness :
    addDoctorSubmit db0 "" "Cardiology" 100 =
      FormAction.showError "First name and Specialty are required." ∧
    addPatientSubmit db0 "Eve" "" = FormAction.showError "Name and phone required" ∧
    issuesInsert (addDoctorSubmit db0 "Carol" "ENT" 100) = true ∧
    (issuesInsert (addPatientSubmit db0 "Eve" "9848000003") = true ↔
      (¬("Eve" : String) = "" ∧ ¬("9848000003" : String) = "")) :=
  ⟨(forms_validate_presence_only db0 "" "Cardiology" "" "" "" "" 100 0).2.1 (Or.inl rfl),
   (forms_validate_presence_only db0 "" "" "Eve" "" "" "" 0 0).2.2.2.1 (Or.inr rfl),
   ((forms_validate_presence_only db0 "Carol" "ENT" "" "" "" "" 100 0).1).mpr
     (by exact ⟨by decide, by decide⟩),
   (forms_validate_presence_only db0 "" "" "Eve" "9848000003" "" "" 0 0).2.2.1⟩

theorem ilocHead_filter_first {α : Type} (f : α → String) (g : α → Nat)
    (sel : String) :
    ∀ (pre post : List α) (a : α), (∀ b ∈ pre, ¬f b = sel) → f a = sel →
      ilocHead (((pre ++ a :: post).filter (fun x => f x == sel)).map g) =
        Except.ok (g a) := by
  intro pre post a hpre ha
  induction pre with
  | nil =>
    have : (f a == sel) = true := by simpa using ha
    simp [List.filter_cons, this, ilocHead]
  | cons b bs ih =>
    have hb : (f b == sel) = false := by
      simpa using hpre b (List.mem_cons_self b bs)
    simp only [List.cons_append, List.filter_cons, hb]
    exact ih (fun x hx => hpre x (List.mem_cons_of_mem b hx))

/-- C10: every dropdown selection is resolved by taking `.iloc[0]` of the rows
whose rendered label equals the selected string, so the id handed to the
INSERT is the id of the first row in fetch order whose label matches — for the
patient-name lookup, the doctor-combo lookup and the appointment-label lookup
alike — irrespective of any later rows rendering to the same label. -/
theorem reverse_lookup_first_match (sel : String) :
    (∀ (pre post : List Patient) (p : Patient),
      (∀ q ∈ pre, ¬q.name = sel) → p.name = sel →
      ilocHead (patientIdLookup (pre ++ p :: post) sel) = Except.ok p.patient_id) ∧
    (∀ (pre post : List Doctor) (d : Doctor),
      (∀ q ∈ pre, ¬doctorLabel q = sel) → doctorLabel d = sel →
      ilocHead (doctorIdLookup (pre ++ d :: post) sel) = Except.ok d.doctor_id) ∧
    (∀ (db : DB) (pre post : List ApptChoice) (x : ApptChoice),
      apptChoices db = pre ++ x :: post →
      (∀ q ∈ pre, ¬apptChoiceLabel q = sel) → apptChoiceLabel x = sel →
      ilocHead (appointIdLookup db sel) = Except.ok x.appoint_id) := by
  refine ⟨?_, ?_, ?_⟩
  · intro pre post p hpre hp
    exact ilocHead_filter_first (fun q => q.name) Patient.patient_id sel pre post p hpre hp
  · intro pre post d hpre hd
    exact ilocHead_filter_first doctorLabel Doctor.doctor_id sel pre post d hpre hd
  · intro db pre post x hdb hpre hx
    unfold appointIdLookup
    rw [hdb]
    exact ilocHead_filter_first apptChoiceLabel ApptChoice.appoint_id sel pre post x hpre hx

/-- Witness for C10: two doctors rendering to the same label
"Dr. Bob - Dermatology" at positions 1 and 2; the lookup resolves the label to
the id of the earlier row (2), not of the later one (3). -/
theorem reverse_lookup_first_match_witness :
    ilocHead (doctorIdLookup
      [⟨1, "Alice", "Cardiology", 20000⟩, ⟨2, "Bob", "Dermatology", 15000⟩,
       ⟨3, "Bob", "Dermatology", 9000⟩] "Dr. Bob - Dermatology") = Except.ok 2 :=
  (reverse_lookup_first_match "Dr. Bob - Dermatology").2.1
    [⟨1, "Alice", "Cardiology", 20000⟩] [⟨3, "Bob", "Dermatology", 9000⟩]
    ⟨2, "Bob", "Dermatology", 15000⟩ (by decide) rfl

/-- C6: on demand each record screen fetches all rows of its table — Doctors
ordered by `doctor_id`, Patients by `patient_id` descending, Appointments (with
the joined patient/doctor names) by date then id descending, Treatments (with
the joined names) by `treatment_id` descending. For the joined screens the
hypotheses say every foreign key resolves (referential integrity of the
schema), under which the displayed rows are exactly the rows of the table. -/
theorem views_show_all_rows_ordered (db : DB)
    (hA : ∀ a ∈ db.appointments, (apptJoinRow db a).isSome)
    (hT : ∀ t ∈ db.treatments, (treatJoinRow db t).isSome) :
    (doctorsView db).Perm db.doctors ∧ List.Sorted doctorOrd (doctorsView db) ∧
    (patientsView db).Perm db.patients ∧ List.Sorted patientOrd (patientsView db) ∧
    ((appointmentsView db).map ApptRow.appoint_id).Perm
      (db.appointments.map Appointment.appoint_id) ∧
    List.Sorted apptRowOrd (appointmentsView db) ∧
    ((treatmentsView db).map TreatRow.treatment_id).Perm
      (db.treatments.map Treatment.treatment_id) ∧
    List.Sorted treatRowOrd (treatmentsView db) := by
  refine ⟨List.perm_insertionSort doctorOrd db.doctors,
    List.sorted_insertionSort doctorOrd db.doctors,
    List.perm_insertionSort patientOrd db.patients,
    List.sorted_insertionSort patientOrd db.patients, ?_,
    List.sorted_insertionSort apptRowOrd _, ?_,
    List.sorted_insertionSort treatRowOrd _⟩
  · have h1 : ((db.appointments.filterMap (apptJoinRow db)).map ApptRow.appoint_id) =
        db.appointments.map Appointment.appoint_id :=
      filterMap_map_of_isSome (apptJoinRow db) ApptRow.appoint_id Appointment.appoint_id
        (fun a b hb => apptJoinRow_id hb) db.appointments hA
    calc ((appointmentsView db).map ApptRow.appoint_id).Perm
          ((db.appointments.filterMap (apptJoinRow db)).map ApptRow.appoint_id) :=
        (List.perm_insertionSort apptRowOrd _).map ApptRow.appoint_id
      _ = db.appointments.map Appointment.appoint_id := h1
  · have h1 : ((db.treatments.filterMap (treatJoinRow db)).map TreatRow.treatment_id) =
        db.treatments.map Treatment.treatment_id :=
      filterMap_map_of_isSome (treatJoinRow db) TreatRow.treatment_id Treatment.treatment_id
        (fun t b hb => treatJoinRow_id hb) db.treatments hT
    calc ((treatmentsView db).map TreatRow.treatment_id).Perm
          ((db.treatments.filterMap (treatJoinRow db)).map TreatRow.treatment_id) :=
        (List.perm_insertionSort treatRowOrd _).map TreatRow.treatment_id
      _ = db.treatments.map Treatment.treatment_id := h1


/-- Witness for C6 at a database where every foreign key resolves. -/
theorem views_show_all_rows_ordered_witness :
    (doctorsView db1).Perm db1.doctors ∧ List.Sorted doctorOrd (doctorsView db1) ∧
    (patientsView db1).Perm db1.patients ∧ List.Sorted patientOrd (patientsView db1) ∧
    ((appointmentsView db1).map ApptRow.appoint_id).Perm
      (db1.appointments.map Appointment.appoint_id) ∧
    List.Sorted apptRowOrd (appointmentsView db1) ∧
    ((treatmentsView db1).map TreatRow.treatment_id).Perm
      (db1.treatments.map Treatment.treatment_id) ∧
    List.Sorted treatRowOrd (treatmentsView db1) :=
  views_show_all_rows_ordered db1 (by decide) (by decide)

theorem ilocHead_lookup_of_find? {α : Type} {f : α → String} {g : α → Nat}
    {l : List α} {sel : String} {a : α}
    (h : l.find? (fun x => f x == sel) = some a) :
    ilocHead ((l.filter (fun x => f x == sel)).map g) = Except.ok (g a) := by
  apply ilocHead_of_head?
  rw [List.head?_map, filter_head?_eq_find?, h]
  rfl

/-- C8: booking an appointment for the selected patient "Jane Smith" and a
doctor whose rendered combo is the selected string succeeds, triggers the
refresh, and the refreshed appointment list holds exactly one new row — a row
with a fresh appointment id, joined to the patient name "Jane Smith" and the
first name of the selected doctor — while every previously listed row persists. -/
theorem booking_adds_exactly_one_joined_row (db : DB) (dc : String) (date : Nat)
    (p : Patient) (d : Doctor)
    (hp : db.patients.find? (fun q => q.name == "Jane Smith") = some p)
    (hd : db.doctors.find? (fun q => doctorLabel q == dc) = some d)
    (hup : (db.patients.map Patient.patient_id).Nodup)
    (hud : (db.doctors.map Doctor.doctor_id).Nodup) :
    ∃ res row,
      bookSubmit db "Jane Smith" dc date "Scheduled" = Except.ok res ∧
      res.rerun = true ∧
      (appointmentsView res.db).Perm (row :: appointmentsView db) ∧
      row.patient = "Jane Smith" ∧ row.doctor = d.first_name ∧
      (∀ r ∈ appointmentsView db, ¬r.appoint_id = row.appoint_id) := by
  have hpmem : p ∈ db.patients := List.mem_of_find?_eq_some hp
  have hdmem : d ∈ db.doctors := List.mem_of_find?_eq_some hd
  have hpname : p.name = "Jane Smith" := by
    have := List.find?_some hp
    simpa using this
  have hlook1 : ilocHead (patientIdLookup db.patients "Jane Smith") =
      Except.ok p.patient_id := ilocHead_lookup_of_find? hp
  have hlook2 : ilocHead (doctorIdLookup db.doctors dc) =
      Except.ok d.doctor_id := ilocHead_lookup_of_find? hd
  have hanyp : db.patients.any (fun q => q.patient_id == p.patient_id) = true := by
    rw [List.any_eq_true]
    exact ⟨p, hpmem, by simp⟩
  have hanyd : db.doctors.any (fun q => q.doctor_id == d.doctor_id) = true := by
    rw [List.any_eq_true]
    exact ⟨d, hdmem, by simp⟩
  set nid := nextId (db.appointments.map Appointment.appoint_id) with hnid
  set anew : Appointment := ⟨nid, p.patient_id, d.doctor_id, date, "Scheduled"⟩ with hanew
  set db2 : DB := { db with appointments := db.appointments ++ [anew] } with hdb2
  have hins : insertAppointment p.patient_id d.doctor_id date "Scheduled" db =
      Except.ok db2 := by
    simp [insertAppointment, hanyp, hanyd, statusAllowed, hdb2, hanew, hnid]
  have hbook : bookSubmit db "Jane Smith" dc date "Scheduled" =
      Except.ok (execute_query db
        (insertAppointment p.patient_id d.doctor_id date "Scheduled")
        "Appointment booked!") := by
    simp [bookSubmit, hlook1, hlook2, Except.bind, Bind.bind, pure, Except.pure]
  have hexec : execute_query db
      (insertAppointment p.patient_id d.doctor_id date "Scheduled")
      "Appointment booked!" = ⟨db2, Msg.success "Appointment booked!", true⟩ := by
    simp [execute_query, hins]
  set row : ApptRow := ⟨nid, p.name, d.first_name, d.specialty, date, "Scheduled"⟩ with hrow
  have hfindp : db.patients.find? (fun q => q.patient_id == p.patient_id) = some p :=
    find?_key_of_nodup Patient.patient_id hup hpmem
  have hfindd : db.doctors.find? (fun q => q.doctor_id == d.doctor_id) = some d :=
    find?_key_of_nodup Doctor.doctor_id hud hdmem
  have hjoin : apptJoinRow db anew = some row := by
    show (match db.patients.find? (fun q => q.patient_id == p.patient_id),
               db.doctors.find? (fun q => q.doctor_id == d.doctor_id) with
          | some q, some e =>
              some (⟨nid, q.name, e.first_name, e.specialty, date, "Scheduled"⟩ : ApptRow)
          | _, _ => none) = some row
    rw [hfindp, hfindd]
  have hfun : apptJoinRow db2 = apptJoinRow db := rfl
  have hfm : db2.appointments.filterMap (apptJoinRow db2) =
      db.appointments.filterMap (apptJoinRow db) ++ [row] := by
    rw [hfun]
    show (db.appointments ++ [anew]).filterMap (apptJoinRow db) = _
    rw [List.filterMap_append]
    simp [List.filterMap_cons, hjoin]
  have hperm : (appointmentsView db2).Perm (row :: appointmentsView db) := by
    have s1 : (appointmentsView db2).Perm
        (db.appointments.filterMap (apptJoinRow db) ++ [row]) := by
      rw [← hfm]
      exact List.perm_insertionSort _ _
    have s2 : (db.appointments.filterMap (apptJoinRow db) ++ [row]).Perm
        (row :: db.appointments.filterMap (apptJoinRow db)) :=
      List.perm_append_singleton row _
    have s3 : (row :: db.appointments.filterMap (apptJoinRow db)).Perm
        (row :: appointmentsView db) :=
      List.Perm.cons row ((List.perm_insertionSort apptRowOrd _).symm)
    exact (s1.trans s2).trans s3
  have hfresh : ∀ r ∈ appointmentsView db, ¬r.appoint_id = row.appoint_id := by
    intro r hr hre
    have hr2 : r ∈ db.appointments.filterMap (apptJoinRow db) :=
      (List.mem_insertionSort apptRowOrd).mp hr
    rcases List.mem_filterMap.mp hr2 with ⟨a, ha, hja⟩
    have hid : r.appoint_id = a.appoint_id := apptJoinRow_id hja
    have : a.appoint_id ∈ db.appointments.map Appointment.appoint_id :=
      List.mem_map_of_mem Appointment.appoint_id ha
    exact nextId_fresh this (by rw [← hid, hre])
  refine ⟨⟨db2, Msg.success "Appointment booked!", true⟩, row, ?_, rfl, hperm,
    hpname, rfl, hfresh⟩
  rw [hbook, hexec]

/-- Witness for C8 at the seed database: booking "Jane Smith" with
"Dr. Alice - Cardiology" yields exactly one new, correctly joined row. -/
theorem booking_adds_exactly_one_joined_row_witness :
    ∃ res row,
      bookSubmit db0 "Jane Smith" "Dr. Alice - Cardiology" 100 "Scheduled" =
        Except.ok res ∧
      res.rerun = true ∧
      (appointmentsView res.db).Perm (row :: appointmentsView db0) ∧
      row.patient = "Jane Smith" ∧
      row.doctor = (⟨1, "Alice", "Cardiology", 20000⟩ : Doctor).first_name ∧
      (∀ r ∈ appointmentsView db0, ¬r.appoint_id = row.appoint_id) :=
  booking_adds_exactly_one_joined_row db0 "Dr. Alice - Cardiology" 100
    ⟨2, "Jane Smith", "9848000002"⟩ ⟨1, "Alice", "Cardiology", 20000⟩
    (by decide) (by decide) (by decide) (by decide)

set_option maxRecDepth 10000 in
/-- Counterexample to C2: no SQL statement of the Appointments menu branch —
its complete statement list is embedded in `appointmentsScreenStatements` —
mentions UPDATE; the branch offers no status-update action. -/
theorem no_update_in_appointments_branch :
    appointmentsScreenStatements.all (fun s => !(sqlMentions "UPDATE" s)) = true := by
  decide

set_option maxRecDepth 10000 in
/-- C2 amended: the Appointments screen offers display and creation only — its
statements are three SELECTs and one INSERT, none an UPDATE, and a submitted
booking only ever appends a new appointment row, never modifying the status
of an existing row; no status-update action exists. -/
theorem appointments_branch_creates_only (db : DB) (pn dc : String) (date : Nat)
    (st : String) (res : ExecResult) :
    (appointmentsScreenStatements.filter (fun s => sqlMentions "UPDATE" s) = []) ∧
    (bookSubmit db pn dc date st = Except.ok res →
      (res.db.appointments = db.appointments ∨
        ∃ a, res.db.appointments = db.appointments ++ [a]) ∧
      res.db.doctors = db.doctors ∧ res.db.patients = db.patients ∧
      res.db.treatments = db.treatments) := by
  constructor
  · decide
  · intro h
    cases h1 : ilocHead (patientIdLookup db.patients pn) with
    | error e => simp [bookSubmit, h1, Except.bind, Bind.bind] at h
    | ok pid =>
      cases h2 : ilocHead (doctorIdLookup db.doctors dc) with
      | error e => simp [bookSubmit, h1, h2, Except.bind, Bind.bind] at h
      | ok did =>
        have hres : res = execute_query db (insertAppointment pid did date st)
            "Appointment booked!" := by
          simp [bookSubmit, h1, h2, Except.bind, Bind.bind, pure, Except.pure] at h
          exact h.symm
        subst hres
        cases hs : insertAppointment pid did date st db with
        | error e => simp [execute_query, hs]
        | ok db2 =>
          have hdb2 : db2.appointments = db.appointments ++
                [⟨nextId (db.appointments.map Appointment.appoint_id), pid, did, date, st⟩] ∧
              db2.doctors = db.doctors ∧ db2.patients = db.patients ∧
              db2.treatments = db.treatments := by
            unfold insertAppointment at hs
            split_ifs at hs with hf1 hf2 hf3
            cases hs
            exact ⟨rfl, rfl, rfl, rfl⟩
          simp only [execute_query, hs]
          exact ⟨Or.inr ⟨_, hdb2.1⟩, hdb2.2.1, hdb2.2.2.1, hdb2.2.2.2⟩

/-- The result of the witness booking on the seed database. -/
def bookRes0 : ExecResult :=
  ⟨{ db0 with appointments := [⟨1, 2, 1, 100, "Scheduled"⟩] },
    Msg.success "Appointment booked!", true⟩

/-- Witness for the amended C2: a concrete successful booking appends one row
and leaves every pre-existing row of every table untouched. -/
theorem appointments_branch_creates_only_witness :
    (appointmentsScreenStatements.filter (fun s => sqlMentions "UPDATE" s) = []) ∧
    ((bookRes0.db.appointments = db0.appointments ∨
        ∃ a, bookRes0.db.appointments = db0.appointments ++ [a]) ∧
      bookRes0.db.doctors = db0.doctors ∧ bookRes0.db.patients = db0.patients ∧
      bookRes0.db.treatments = db0.treatments) :=
  ⟨(appointments_branch_creates_only db0 "Jane Smith" "Dr. Alice - Cardiology" 100
      "Scheduled" bookRes0).1,
   (appointments_branch_creates_only db0 "Jane Smith" "Dr. Alice - Cardiology" 100
      "Scheduled" bookRes0).2 rfl⟩

/-- Counterexample to C3: rendering the treatment form over the seed database —
which has no appointments, so the selection row set is empty — terminates with
an uncaught IndexError from the `.iloc[0]` reverse lookup (line 191), which no
`try/except` protects. -/
theorem treatment_form_raises_on_empty_selection :
    addTreatmentStep db0 "" "" 0 false =
      Except.error "IndexError: single positional indexer is out-of-bounds" := rfl

/-- C3 amended: constraint-violating writes (inside `execute_query`) and
malformed ad-hoc queries (inside the Raw SQL `try/except`) are caught at the
point of the operation and rendered inline; the dropdown reverse lookups,
however, are not guarded: the booking submit and the treatment form terminate
with an uncaught IndexError exactly when the row set of a selection is empty
or matches no row. -/
theorem failures_caught_except_selection_lookups :
    (∀ e, rawSqlRun (Except.error e) = UIOut.errorMsg ("SQL Error: " ++ e)) ∧
    (∀ db m e, execute_query db (fun _ => Except.error e) m =
      ⟨db, Msg.error ("Database Error: " ++ e), false⟩) ∧
    (∀ db pn dc date st, (∃ r, bookSubmit db pn dc date st = Except.ok r) ↔
      (¬patientIdLookup db.patients pn = [] ∧ ¬doctorIdLookup db.doctors dc = [])) ∧
    (∀ db choice service cost sub,
      (∃ r, addTreatmentStep db choice service cost sub = Except.ok r) ↔
      ¬appointIdLookup db choice = []) := by
  refine ⟨fun e => rfl, fun db m e => rfl, ?_, ?_⟩
  · intro db pn dc date st
    cases hl1 : patientIdLookup db.patients pn with
    | nil => simp [bookSubmit, hl1, ilocHead, Except.bind, Bind.bind]
    | cons a t =>
      cases hl2 : doctorIdLookup db.doctors dc with
      | nil => simp [bookSubmit, hl1, hl2, ilocHead, Except.bind, Bind.bind]
      | cons b u =>
        simp [bookSubmit, hl1, hl2, ilocHead, Except.bind, Bind.bind, pure, Except.pure]
  · intro db choice service cost sub
    cases hl : appointIdLookup db choice with
    | nil => simp [addTreatmentStep, hl, ilocHead, Except.bind, Bind.bind]
    | cons a t =>
      cases sub <;> by_cases hs : service = "" <;>
        simp [addTreatmentStep, hl, ilocHead, hs, Except.bind, Bind.bind, pure, Except.pure]

/-- Witness for the amended C3: a failing raw query renders inline; a booking
with matching selections succeeds; the treatment form over a database with no
appointments does terminate with the uncaught lookup error. -/
theorem failures_caught_except_selection_lookups_witness :
    rawSqlRun (Except.error "near unexpected token") =
      UIOut.errorMsg ("SQL Error: " ++ "near unexpected token") ∧
    (∃ r, bookSubmit db0 "Jane Smith" "Dr. Alice - Cardiology" 100 "Scheduled" =
      Except.ok r) ∧
    ¬(∃ r, addTreatmentStep db0 "x" "Cleaning" 5 true = Except.ok r) :=
  ⟨failures_caught_except_selection_lookups.1 "near unexpected token",
   (failures_caught_except_selection_lookups.2.2.1 db0 "Jane Smith"
      "Dr. Alice - Cardiology" 100 "Scheduled").mpr ⟨by decide, by decide⟩,
   fun h =>
     (failures_caught_except_selection_lookups.2.2.2 db0 "x" "Cleaning" 5 true).mp h
       (by decide)⟩

/-- The revenue metric. Modelled from the spec: the analytics variant holding
it is not under `src/`; spec section 8 defines it as the sum of all Treatment
costs, 0 when no treatments exist — the SQL aggregate
`SELECT SUM(cost) FROM Treatments` folded left over the cost column. -/
def revenue (ts : List Treatment) : Int :=
  (ts.map Treatment.cost).foldl (fun acc c => acc + c) 0

/-- C9: the revenue metric equals the sum of the cost column over all
Treatment rows, and equals 0 when no Treatment rows exist. -/
theorem revenue_eq_sum_of_costs (ts : List Treatment) :
    revenue ts = (ts.map Treatment.cost).sum ∧ revenue ([] : List Treatment) = 0 := by
  constructor
  · rw [List.sum_eq_foldl]
    rfl
  · rfl
